import Mathlib

/-!
Verification of the `hackbench` orchestration core (target-safety gating,
authentication, request dispatch, response classification and scenario
sequencing) against its natural-language specification.

The Python sources under `src/2025/11/hackbench/` are embedded shallowly:
pure string manipulation becomes Lean functions over `String`, the mutable
objects (`TargetConfig`, the authenticator's state) become immutable records
with explicit state passing, network and HTML-parsing collaborators
(`requests`, `BeautifulSoup`) become oracle parameters returning
`Except`/`Option` results, and Python's `try/except` around transport calls
becomes a `match` on those `Except` values.
-/

/-- Python `str.lower()` restricted to the ASCII hostnames this tool handles:
lower-case every character (`Char.toLower` lowers exactly the ASCII letters). -/
def pyLower (s : String) : String := ⟨s.data.map Char.toLower⟩

/-- Python `str.upper()` on the ASCII method names used here. -/
def pyUpper (s : String) : String := ⟨s.data.map Char.toUpper⟩

/-- Python's substring test `needle in haystack`. -/
def strContainsSub (haystack needle : String) : Bool :=
  decide (needle.data <:+: haystack.data)

/-- Python `re.match` against an anchored literal pattern: a prefix test. -/
def strStartsWith (s p : String) : Bool := decide (p.data <+: s.data)

/-- Python `s.lstrip('/')`: drop every leading `/`. -/
def lstripSlash (s : String) : String := ⟨s.data.dropWhile (fun ch => ch = '/')⟩

/-- `core/target_config.py`, class `TargetConfig`: host, port, scheme and the
`_confirmed` flag (set only by `confirm_target`). -/
structure TargetConfig where
  host : String
  port : Nat
  use_https : Bool
  confirmed : Bool

/-- `TargetConfig.ALLOWED_HOSTS` (`target_config.py` lines 14-19). -/
def TargetConfig.ALLOWED_HOSTS : List String :=
  ["localhost", "127.0.0.1", "::1", "0.0.0.0"]

/-- `TargetConfig.base_url` (lines 35-41): `scheme://host`, with `:port`
appended unless `port in (80, 443)`. -/
def TargetConfig.base_url (c : TargetConfig) : String :=
  let scheme := if c.use_https then "https" else "http"
  if c.port = 80 ∨ c.port = 443 then scheme ++ "://" ++ c.host
  else scheme ++ "://" ++ c.host ++ ":" ++ toString c.port

/-- `TargetConfig._is_private_ip` (lines 60-71): `re.match` of the anchored
patterns `^10\.`, `^172\.(1[6-9]|2[0-9]|3[0-1])\.` (the 16 prefixes
`172.16.` .. `172.31.`) and `^192\.168\.` against the host string. -/
def TargetConfig.is_private_ip (host : String) : Bool :=
  strStartsWith host "10." ||
    (List.range 16).any (fun i => strStartsWith host ("172." ++ toString (16 + i) ++ ".")) ||
    strStartsWith host "192.168."

/-- `TargetConfig.is_safe_target` (lines 43-58): lower-cased host in
`ALLOWED_HOSTS`, else private-prefix match, else the `_confirmed` flag. -/
def TargetConfig.is_safe_target (c : TargetConfig) : Bool :=
  if pyLower c.host ∈ TargetConfig.ALLOWED_HOSTS then true
  else if TargetConfig.is_private_ip c.host then true
  else c.confirmed

/-- `TargetConfig.confirm_target` (lines 73-75): set `_confirmed`. -/
def TargetConfig.confirm_target (c : TargetConfig) : TargetConfig :=
  { c with confirmed := true }

/-- `TargetConfig.get_dvwa_url` (lines 77-89): `path.lstrip('/')` appended to
`base_url` after a single `/`. -/
def TargetConfig.get_dvwa_url (c : TargetConfig) (path : String) : String :=
  c.base_url ++ "/" ++ lstripSlash path

/-- Modelled from the spec's words for claim C8 (a refinement comparison, not
source code): "strips a leading slash from `path` and appends it to `baseUrl()`
with exactly one separating slash — no other normalization": remove one
leading slash when present, then join. -/
def TargetConfig.resolvePathSpec (c : TargetConfig) (path : String) : String :=
  c.base_url ++ "/" ++ (if strStartsWith path "/" then ⟨path.data.tail⟩ else path)

theorem is_safe_target_eq_or (c : TargetConfig) :
    c.is_safe_target =
      (decide (pyLower c.host ∈ TargetConfig.ALLOWED_HOSTS) ||
        TargetConfig.is_private_ip c.host || c.confirmed) := by
  unfold TargetConfig.is_safe_target
  by_cases h1 : pyLower c.host ∈ TargetConfig.ALLOWED_HOSTS
  · simp [h1]
  · by_cases h2 : TargetConfig.is_private_ip c.host
    · simp [h1, h2]
    · simp [h1, h2]

/-- C1: `is_safe_target` is true exactly when the lower-cased host equals one
of `localhost`, `127.0.0.1`, `::1`, `0.0.0.0`, or the host matches a private
IPv4 prefix, or the target was confirmed; each of the eight listed hosts is
safe without confirmation, and `8.8.8.8` is unsafe before `confirm_target`
and safe after. -/
theorem c1_is_safe_target_characterization :
    (∀ c : TargetConfig,
      c.is_safe_target = true ↔
        (pyLower c.host = "localhost" ∨ pyLower c.host = "127.0.0.1" ∨
          pyLower c.host = "::1" ∨ pyLower c.host = "0.0.0.0") ∨
        TargetConfig.is_private_ip c.host = true ∨ c.confirmed = true) ∧
    TargetConfig.is_safe_target ⟨"localhost", 80, false, false⟩ = true ∧
    TargetConfig.is_safe_target ⟨"127.0.0.1", 80, false, false⟩ = true ∧
    TargetConfig.is_safe_target ⟨"::1", 80, false, false⟩ = true ∧
    TargetConfig.is_safe_target ⟨"0.0.0.0", 80, false, false⟩ = true ∧
    TargetConfig.is_safe_target ⟨"10.1.2.3", 80, false, false⟩ = true ∧
    TargetConfig.is_safe_target ⟨"172.16.0.5", 80, false, false⟩ = true ∧
    TargetConfig.is_safe_target ⟨"172.31.255.255", 80, false, false⟩ = true ∧
    TargetConfig.is_safe_target ⟨"192.168.1.1", 80, false, false⟩ = true ∧
    TargetConfig.is_safe_target ⟨"8.8.8.8", 80, false, false⟩ = false ∧
    TargetConfig.is_safe_target
      (TargetConfig.confirm_target ⟨"8.8.8.8", 80, false, false⟩) = true := by
  refine ⟨fun c => ?_, by decide, by decide, by decide, by decide, by decide,
    by decide, by decide, by decide, by decide, by decide⟩
  rw [is_safe_target_eq_or]
  simp [TargetConfig.ALLOWED_HOSTS]
  tauto

/-- C7 counterexample: with `host=localhost`, `port=443`, `https=false` the
code omits the port (it omits whenever the port is 80 or 443, regardless of
scheme), while the claim requires `http://localhost:443` because 443 is not
http's default port. -/
theorem c7_counterexample_port_443_on_http :
    TargetConfig.base_url ⟨"localhost", 443, false, false⟩ = "http://localhost" ∧
    TargetConfig.base_url ⟨"localhost", 443, false, false⟩ ≠ "http://localhost:443" := by
  exact ⟨by decide, by decide⟩

/-- C7 (amended): `base_url` composes `scheme://host[:port]`, omitting the
port exactly when it is 80 or 443 — regardless of the scheme — and including
it otherwise; the three concrete examples of the claim hold. -/
theorem c7_amended_base_url_format :
    (∀ c : TargetConfig,
      c.base_url =
        (if c.use_https then "https" else "http") ++ "://" ++ c.host ++
          (if c.port = 80 ∨ c.port = 443 then "" else ":" ++ toString c.port)) ∧
    TargetConfig.base_url ⟨"localhost", 80, false, false⟩ = "http://localhost" ∧
    TargetConfig.base_url ⟨"localhost", 8080, false, false⟩ = "http://localhost:8080" ∧
    TargetConfig.base_url ⟨"localhost", 443, true, false⟩ = "https://localhost" := by
  refine ⟨fun c => ?_, by decide, by decide, by decide⟩
  unfold TargetConfig.base_url
  by_cases h : c.port = 80 ∨ c.port = 443
  · simp [h]
  · simp [h, String.append_assoc]

/-- C8 counterexample: on `path = "//vulnerabilities/xss_r/"` the code's
`lstrip('/')` removes both leading slashes while the claim's "strip a leading
slash, no other normalization" leaves the second one, so the two readings
produce different URLs. -/
theorem c8_counterexample_double_leading_slash :
    TargetConfig.get_dvwa_url ⟨"localhost", 80, false, false⟩ "//vulnerabilities/xss_r/"
        = "http://localhost/vulnerabilities/xss_r/" ∧
    TargetConfig.resolvePathSpec ⟨"localhost", 80, false, false⟩ "//vulnerabilities/xss_r/"
        = "http://localhost//vulnerabilities/xss_r/" ∧
    TargetConfig.get_dvwa_url ⟨"localhost", 80, false, false⟩ "//vulnerabilities/xss_r/"
        ≠ TargetConfig.resolvePathSpec ⟨"localhost", 80, false, false⟩
            "//vulnerabilities/xss_r/" := by
  exact ⟨by decide, by decide, by decide⟩

theorem lstripSlash_slash_append (path : String) :
    lstripSlash ("/" ++ path) = lstripSlash path := by
  unfold lstripSlash
  rw [String.data_append]
  rfl

/-- C8 (amended): `get_dvwa_url` strips all leading slashes from `path` and
appends the result to `base_url` with exactly one separating slash — so
prepending a slash to any path never changes the result, and both spellings
of the reflected-XSS path resolve to the same URL. -/
theorem c8_amended_resolve_path :
    (∀ (c : TargetConfig) (path : String),
      c.get_dvwa_url ("/" ++ path) = c.get_dvwa_url path) ∧
    TargetConfig.get_dvwa_url ⟨"localhost", 80, false, false⟩ "vulnerabilities/xss_r/"
        = "http://localhost/vulnerabilities/xss_r/" ∧
    TargetConfig.get_dvwa_url ⟨"localhost", 80, false, false⟩ "/vulnerabilities/xss_r/"
        = "http://localhost/vulnerabilities/xss_r/" := by
  refine ⟨fun c path => ?_, by decide, by decide⟩
  unfold TargetConfig.get_dvwa_url
  rw [lstripSlash_slash_append]

/-- C10: the private-range check is a textual prefix match on the host
string: any host beginning with `10.`, `192.168.`, or `172.<n>.` for
16 ≤ n ≤ 31 — including non-IPv4 hostnames such as `10.attacker.example` —
is accepted by `is_safe_target` with no confirmation. -/
theorem c10_private_check_is_textual_prefix (c : TargetConfig)
    (hpre : strStartsWith c.host "10." = true ∨
      strStartsWith c.host "192.168." = true ∨
      ∃ n, 16 ≤ n ∧ n ≤ 31 ∧ strStartsWith c.host ("172." ++ toString n ++ ".") = true) :
    c.is_safe_target = true := by
  have hpriv : TargetConfig.is_private_ip c.host = true := by
    unfold TargetConfig.is_private_ip
    rcases hpre with h | h | ⟨n, h16, h31, h⟩
    · simp [h]
    · simp [h]
    · rw [Bool.or_eq_true, Bool.or_eq_true]
      refine Or.inl (Or.inr ?_)
      rw [List.any_eq_true]
      refine ⟨n - 16, ?_, ?_⟩
      · rw [List.mem_range]
        omega
      · have hn : 16 + (n - 16) = n := by omega
        rw [hn]
        exact h
  rw [is_safe_target_eq_or, hpriv]
  simp

/-- C10 witness: the non-IPv4 hostname `10.attacker.example` is treated as
safe by the unanchored textual prefix check, without any confirmation. -/
theorem c10_witness_attacker_example :
    TargetConfig.is_safe_target ⟨"10.attacker.example", 80, false, false⟩ = true :=
  c10_private_check_is_textual_prefix ⟨"10.attacker.example", 80, false, false⟩
    (Or.inl (by decide))

/-- An HTTP response as the core reads it: status, final URL, body text
(`requests.Response.status_code`, `.url`, `.text`). -/
structure Response where
  status_code : Nat
  url : String
  text : String
  deriving DecidableEq

/-- Python `payload.replace('<', lt).replace('>', gt)` for the two encoding
schemes of `check_xss_reflection`: since neither replacement string contains
`<` or `>`, the two sequential `replace` calls equal one simultaneous
character map. -/
def encodeAngles (lt gt : String) (payload : String) : String :=
  String.join (payload.data.map (fun ch =>
    if ch = '<' then lt else if ch = '>' then gt else String.singleton ch))

/-- Python truthiness of a response object: `requests.Response.__bool__`
returns `self.ok`, true exactly when the status code is below 400, so an
`if not response:` guard fires both on `None` and on a present 4xx/5xx
response. -/
def Response.ok (r : Response) : Bool := decide (r.status_code < 400)

/-- `HTTPClient.check_xss_reflection` (`core/http_client.py` lines 88-119):
`if not response: return False` fires on a missing response and on a present
non-ok (status ≥ 400) one; then: true when the literal payload is a
substring of the body, false when only an encoded variant (HTML-entity or
percent-encoded angle brackets) is present, false when nothing is found. -/
def HTTPClient.check_xss_reflection (response : Option Response) (payload : String) : Bool :=
  match response with
  | none => false
  | some r =>
    if r.ok = false then false
    else if strContainsSub r.text payload then true
    else if strContainsSub r.text (encodeAngles "&lt;" "&gt;" payload) then false
    else if strContainsSub r.text (encodeAngles "%3C" "%3E" payload) then false
    else false

/-- C3 counterexample: a present 500-status response whose body contains the
payload verbatim is classified false, because `if not response:` is Python
truthiness and a 4xx/5xx `requests.Response` is falsy — while the claim's
"returns true when the literal payload string occurs verbatim anywhere in
the response body" demands true for it. -/
theorem c3_counterexample_500_with_payload :
    HTTPClient.check_xss_reflection
        (some ⟨500, "u", "<html><script>alert(1)</script></html>"⟩)
        "<script>alert(1)</script>" = false ∧
    strContainsSub "<html><script>alert(1)</script></html>"
        "<script>alert(1)</script>" = true := by
  exact ⟨by decide, by decide⟩

/-- C3 (amended): the reflection classifier returns true exactly when the
response is present, ok (status below 400) and the literal payload occurs
verbatim in its body; it returns false for a missing or non-ok response
regardless of the body, on the HTML-entity-encoded variant, on the
percent-encoded variant, and when nothing is found — exercised on the
spec's concrete bodies for the payload `<script>alert(1)</script>`. -/
theorem c3_amended_check_reflection_truthy :
    (∀ (r : Response) (payload : String),
      HTTPClient.check_xss_reflection (some r) payload = true ↔
        (r.ok = true ∧ strContainsSub r.text payload = true)) ∧
    (∀ payload : String, HTTPClient.check_xss_reflection none payload = false) ∧
    HTTPClient.check_xss_reflection
        (some ⟨200, "u", "<html><script>alert(1)</script></html>"⟩)
        "<script>alert(1)</script>" = true ∧
    HTTPClient.check_xss_reflection
        (some ⟨200, "u", "<html>&lt;script&gt;alert(1)&lt;/script&gt;</html>"⟩)
        "<script>alert(1)</script>" = false ∧
    strContainsSub "<html>&lt;script&gt;alert(1)&lt;/script&gt;</html>"
        (encodeAngles "&lt;" "&gt;" "<script>alert(1)</script>") = true ∧
    HTTPClient.check_xss_reflection
        (some ⟨200, "u", "<html>%3Cscript%3Ealert(1)%3C/script%3E</html>"⟩)
        "<script>alert(1)</script>" = false ∧
    HTTPClient.check_xss_reflection (some ⟨200, "u", "<html>nothing here</html>"⟩)
        "<script>alert(1)</script>" = false := by
  refine ⟨fun r payload => ?_, fun payload => rfl, by decide, by decide, by decide,
    by decide, by decide⟩
  unfold HTTPClient.check_xss_reflection
  dsimp only
  by_cases hok : r.ok = true
  · rw [if_neg (by simp [hok])]
    by_cases h : strContainsSub r.text payload = true
    · simp [h, hok]
    · simp [h, hok]
  · rw [if_pos (by simp at hok; simp [hok])]
    simp [hok]

/-- A prepared request as `requests.Session.prepare_request` yields it: the
dispatcher only reads back its resolved URL. -/
structure PreparedRequest where
  method : String
  url : String

/-- One structured event emitted to the dual logger by the dispatcher:
`logger.http_request`, `logger.http_response`, or `logger.operational(...,
"ERROR")`. -/
inductive LogEvent where
  | httpRequest (method url : String) (payload : List (String × String))
  | httpResponse (status : Nat) (bodyPrefix : String)
  | errorLog (msg : String)

/-- The transport collaborator behind `HTTPClient._send`
(`core/http_client.py` lines 55-86): `prepare_request` and `Session.send`,
each of which either returns or raises a `requests` exception (modelled as
`Except.error` with the exception text). -/
structure Transport where
  prepare : String → String → List (String × String) → List (String × String) →
    Except String PreparedRequest
  send : PreparedRequest → Except String Response

/-- `HTTPClient._send` (lines 55-86): prepare the request, log the pre-send
event, send, log the post-send event, and return the response; any
`RequestException` from preparing or sending is caught, logged at error
level, and converted to `none`. -/
def HTTPClient.sendReq (t : Transport) (method url : String)
    (params dataFields : List (String × String)) : Option Response × List LogEvent :=
  let m := pyUpper method
  match t.prepare m url params dataFields with
  | Except.error e => (none, [LogEvent.errorLog (m ++ " request failed: " ++ e)])
  | Except.ok prepared =>
    let log_payload := if m = "GET" then params else dataFields
    match t.send prepared with
    | Except.error e =>
        (none, [LogEvent.httpRequest m prepared.url log_payload,
          LogEvent.errorLog (m ++ " request failed: " ++ e)])
    | Except.ok r =>
        (some r, [LogEvent.httpRequest m prepared.url log_payload,
          LogEvent.httpResponse r.status_code (r.text.take 200)])

/-- `HTTPClient.get` (lines 27-39): delegate to `_send` with query params. -/
def HTTPClient.get (t : Transport) (url : String)
    (params : List (String × String)) : Option Response × List LogEvent :=
  HTTPClient.sendReq t "GET" url params []

/-- `HTTPClient.post` (lines 41-53): delegate to `_send` with form data. -/
def HTTPClient.post (t : Transport) (url : String)
    (dataFields : List (String × String)) : Option Response × List LogEvent :=
  HTTPClient.sendReq t "POST" url [] dataFields

/-- Whether a log event is the dispatcher's error-level entry. -/
def LogEvent.isError : LogEvent → Bool
  | LogEvent.errorLog _ => true
  | _ => false

theorem sendReq_total_cases (t : Transport) (method url : String)
    (params dataFields : List (String × String)) :
    ((HTTPClient.sendReq t method url params dataFields).1 = none ∧
      (((HTTPClient.sendReq t method url params dataFields).2.getLast?).map
        LogEvent.isError) = some true) ∨
    (∃ p r, t.prepare (pyUpper method) url params dataFields = Except.ok p ∧
      t.send p = Except.ok r ∧
      (HTTPClient.sendReq t method url params dataFields).1 = some r) := by
  simp only [HTTPClient.sendReq]
  cases hp : t.prepare (pyUpper method) url params dataFields with
  | error e => exact Or.inl ⟨rfl, rfl⟩
  | ok prepared =>
    dsimp only
    cases hs : t.send prepared with
    | error e => exact Or.inl ⟨rfl, rfl⟩
    | ok r => exact Or.inr ⟨prepared, r, rfl, hs, rfl⟩

/-- C6: for every transport behaviour, the dispatcher's `get` and `post`
either return the received response (when preparing and sending both
succeed), or return `none` with an error-level entry as the last log event
(when a transport exception was raised); being total Lean functions of the
transport outcome, they never propagate such an exception. -/
theorem c6_dispatcher_converts_transport_errors (t : Transport) (url : String)
    (q d : List (String × String)) :
    (((HTTPClient.get t url q).1 = none ∧
        (((HTTPClient.get t url q).2.getLast?).map LogEvent.isError) = some true) ∨
      (∃ p r, t.prepare "GET" url q [] = Except.ok p ∧ t.send p = Except.ok r ∧
        (HTTPClient.get t url q).1 = some r)) ∧
    (((HTTPClient.post t url d).1 = none ∧
        (((HTTPClient.post t url d).2.getLast?).map LogEvent.isError) = some true) ∨
      (∃ p r, t.prepare "POST" url [] d = Except.ok p ∧ t.send p = Except.ok r ∧
        (HTTPClient.post t url d).1 = some r)) := by
  constructor
  · have h := sendReq_total_cases t "GET" url q []
    simpa [HTTPClient.get] using h
  · have h := sendReq_total_cases t "POST" url [] d
    simpa [HTTPClient.post] using h

/-- The authenticator's mutable state (`core/auth.py` lines 21-27):
`_logged_in` and the cached `security_level`. -/
structure AuthState where
  logged_in : Bool
  security_level : Option String
  deriving DecidableEq

/-- The network collaborator of `DVWAAuthenticator.login`: the GET of
`login.php` and the POST of the credential form, each either a response or a
raised `requests` exception. -/
structure LoginNet where
  getLogin : Except String Response
  postLogin : List (String × String) → Except String Response

/-- The credential form of `login` (lines 57-64): username, password,
`Login=Login`, and `user_token` only when a CSRF token was extracted. -/
def loginForm (username password : String) (tok : Option String) :
    List (String × String) :=
  [("username", username), ("password", password), ("Login", "Login")] ++
    (match tok with
     | some tk => [("user_token", tk)]
     | none => [])

/-- `DVWAAuthenticator.login` (lines 29-82): GET the login page (fail on a
raised exception or a non-200 status), extract a CSRF token from its body
(`_extract_csrf_token`, abstracted as the `extractToken` oracle over the
HTML), POST the credential form, and succeed iff `login.php` does not occur
in the final URL and the status is 200; only then is `_logged_in` set. -/
def DVWAAuthenticator.login (extractToken : String → Option String)
    (net : LoginNet) (username password : String) (st : AuthState) :
    Bool × AuthState :=
  match net.getLogin with
  | Except.error _ => (false, st)
  | Except.ok resp =>
    if resp.status_code ≠ 200 then (false, st)
    else
      match net.postLogin (loginForm username password (extractToken resp.text)) with
      | Except.error _ => (false, st)
      | Except.ok r2 =>
        if strContainsSub r2.url "login.php" = false ∧ r2.status_code = 200 then
          (true, { st with logged_in := true })
        else (false, st)

/-- `DVWAAuthenticator.detect_security_level` (lines 84-127): before login it
returns `none` with no request; otherwise it GETs `security.php` and parses
the selected option (oracle `parseSelectedOption` over the HTML), falling
back to the `Security Level is currently: (\w+)` regex scan (oracle
`regexScan`), lower-casing any hit. The third result component counts the
network calls made. -/
def DVWAAuthenticator.detect_security_level
    (parseSelectedOption regexScan : String → Option String)
    (getSecurity : Except String Response) (st : AuthState) :
    Option String × AuthState × Nat :=
  if st.logged_in = false then (none, st, 0)
  else
    match getSecurity with
    | Except.error _ => (none, st, 1)
    | Except.ok r =>
      if r.status_code ≠ 200 then (none, st, 1)
      else
        match parseSelectedOption r.text with
        | some v => (some (pyLower v), { st with security_level := some (pyLower v) }, 1)
        | none =>
          match regexScan r.text with
          | some w => (some (pyLower w), { st with security_level := some (pyLower w) }, 1)
          | none => (none, st, 1)

/-- C4: `login` succeeds exactly when the GET of the login page returned
status 200 and the POST's final URL does not contain `login.php` with status
200; the state becomes Authenticated precisely on success and is never reset
by `login` (so the transition does not reverse); while Unauthenticated,
`detect_security_level` returns `none` without touching state or the
network, and a concrete login double whose final URL is still the login page
yields failure with the state unchanged. -/
theorem c4_login_success_and_state (extractToken : String → Option String)
    (parse1 parse2 : String → Option String) (net : LoginNet)
    (sec : Except String Response) (username password : String) (st : AuthState) :
    ((DVWAAuthenticator.login extractToken net username password st).1 = true ↔
      ∃ resp r2, net.getLogin = Except.ok resp ∧ resp.status_code = 200 ∧
        net.postLogin (loginForm username password (extractToken resp.text)) =
          Except.ok r2 ∧
        strContainsSub r2.url "login.php" = false ∧ r2.status_code = 200) ∧
    ((DVWAAuthenticator.login extractToken net username password st).2 =
      (if (DVWAAuthenticator.login extractToken net username password st).1
        then { st with logged_in := true } else st)) ∧
    ((DVWAAuthenticator.login extractToken net username password st).2.logged_in =
      (st.logged_in || (DVWAAuthenticator.login extractToken net username password st).1)) ∧
    (∀ lvl : Option String,
      DVWAAuthenticator.detect_security_level parse1 parse2 sec ⟨false, lvl⟩ =
        (none, ⟨false, lvl⟩, 0)) ∧
    ((DVWAAuthenticator.detect_security_level parse1 parse2 sec st).2.1.logged_in =
      st.logged_in) ∧
    (DVWAAuthenticator.login (fun _ => none)
        ⟨Except.ok ⟨200, "http://localhost/login.php", "login page"⟩,
          fun _ => Except.ok ⟨200, "http://localhost/login.php", "login failed"⟩⟩
        "admin" "password" ⟨false, none⟩ = (false, ⟨false, none⟩)) := by
  refine ⟨?_, ?_, ?_, fun lvl => rfl, ?_, by decide⟩
  · unfold DVWAAuthenticator.login
    cases hg : net.getLogin with
    | error e =>
      refine iff_of_false (by simp) ?_
      rintro ⟨resp, r2, hresp, -⟩
      exact Except.noConfusion hresp
    | ok resp =>
      dsimp only
      by_cases h200 : resp.status_code = 200
      · rw [if_neg (by simp [h200])]
        cases hp : net.postLogin (loginForm username password (extractToken resp.text)) with
        | error e =>
          refine iff_of_false (by simp) ?_
          rintro ⟨resp2, r2, hresp2, h2, hpost, -⟩
          cases hresp2
          exact Except.noConfusion (hp.symm.trans hpost)
        | ok r2 =>
          dsimp only
          by_cases hcond : strContainsSub r2.url "login.php" = false ∧ r2.status_code = 200
          · rw [if_pos hcond]
            exact iff_of_true rfl ⟨resp, r2, rfl, h200, hp, hcond⟩
          · rw [if_neg hcond]
            refine iff_of_false (by simp) ?_
            rintro ⟨resp2, rr2, hresp2, h2, hpost, hurl, hst⟩
            cases hresp2
            cases hp.symm.trans hpost
            exact hcond ⟨hurl, hst⟩
      · rw [if_pos h200]
        refine iff_of_false (by simp) ?_
        rintro ⟨resp2, r2, hresp2, h2, -⟩
        cases hresp2
        exact h200 h2
  · unfold DVWAAuthenticator.login
    cases hg : net.getLogin with
    | error e => simp
    | ok resp =>
      dsimp only
      by_cases h200 : resp.status_code = 200
      · rw [if_neg (by simp [h200])]
        cases hp : net.postLogin (loginForm username password (extractToken resp.text)) with
        | error e => rfl
        | ok r2 =>
          dsimp only
          by_cases hcond : strContainsSub r2.url "login.php" = false ∧ r2.status_code = 200
          · rw [if_pos hcond]
            simp
          · rw [if_neg hcond]
            simp
      · rw [if_pos h200]
        simp
  · unfold DVWAAuthenticator.login
    cases hg : net.getLogin with
    | error e => simp
    | ok resp =>
      dsimp only
      by_cases h200 : resp.status_code = 200
      · rw [if_neg (by simp [h200])]
        cases hp : net.postLogin (loginForm username password (extractToken resp.text)) with
        | error e => simp
        | ok r2 =>
          dsimp only
          by_cases hcond : strContainsSub r2.url "login.php" = false ∧ r2.status_code = 200
          · rw [if_pos hcond]
            simp
          · rw [if_neg hcond]
            simp
      · rw [if_pos h200]
        simp
  · unfold DVWAAuthenticator.detect_security_level
    by_cases hl : st.logged_in = false
    · rw [if_pos hl]
    · rw [if_neg hl]
      cases sec with
      | error e => rfl
      | ok r =>
        dsimp only
        by_cases h200 : r.status_code = 200
        · rw [if_neg (by simp [h200])]
          cases parse1 r.text with
          | some v => rfl
          | none =>
            cases parse2 r.text with
            | some w => rfl
            | none => rfl
        · rw [if_pos h200]

/-- The attribution marker appended to every stored payload
(`modules/stored.py` lines 147-149): the payload plus a `UA` HTML comment. -/
def annotatedPayload (payload ua : String) : String :=
  payload ++ "\n<!-- UA: " ++ ua ++ " -->"

/-- The guestbook form of `_attempt_stored_payload` (lines 150-157):
`txtName`, the annotated message, `btnSign`, and `user_token` only when a
CSRF token was fetched. -/
def storedForm (payload ua : String) (tok : Option String) :
    List (String × String) :=
  [("txtName", "XSS Test User"), ("mtxMessage", annotatedPayload payload ua),
    ("btnSign", "Sign Guestbook")] ++
    (match tok with
     | some tk => [("user_token", tk)]
     | none => [])

/-- `StoredXSSModule._attempt_stored_payload` (`modules/stored.py` lines
114-235): optional per-payload approval, POST of the guestbook form (the
`if not response:` guard at line 165 fails the attempt on a missing or
non-ok response), then a separate GET of the same page (same guard at line
182), and success exactly when the literal payload occurs in the body of
that subsequent GET; the entity-encoded check in the else-branch only
selects the explanation logged, both branches report failure. Oracles:
`csrf` for `auth.get_csrf_token`, `ua` for the session's user agent, `post`
and `get` for the dispatcher calls. -/
def StoredXSSModule.attempt_stored_payload (csrf : Option String) (ua : String)
    (post : List (String × String) → Option Response) (get : Option Response)
    (approval : Bool) (interactive : Bool) (payload : String) : Bool :=
  if interactive ∧ approval = false then false
  else
    match post (storedForm payload ua csrf) with
    | none => false
    | some rp =>
      if rp.ok = false then false
      else
        match get with
        | none => false
        | some rg =>
          if rg.ok = false then false
          else if strContainsSub rg.text payload then true
          else if strContainsSub rg.text (encodeAngles "&lt;" "&gt;" payload) then false
          else false

/-- C2: a stored attempt succeeds exactly when (beyond the approval gate and
a truthy — present and ok — POST response) the literal payload occurs in the
body of the truthy GET performed after the POST — the POST's own body is
never examined; a concrete double whose POST response echoes the payload
while the subsequent GET does not is classified as failure. -/
theorem c2_stored_success_requires_subsequent_get (csrf : Option String)
    (ua : String) (post : List (String × String) → Option Response)
    (get : Option Response) (approval : Bool) (interactive : Bool)
    (payload : String) :
    (StoredXSSModule.attempt_stored_payload csrf ua post get approval interactive
        payload = true ↔
      (interactive = false ∨ approval = true) ∧
      (∃ rp, post (storedForm payload ua csrf) = some rp ∧ rp.ok = true) ∧
      (∃ rg, get = some rg ∧ rg.ok = true ∧
        strContainsSub rg.text payload = true)) ∧
    (StoredXSSModule.attempt_stored_payload none "curl"
        (fun _ => some ⟨200, "u",
          "echo: " ++ annotatedPayload "<script>alert(1)</script>" "curl"⟩)
        (some ⟨200, "u", "clean guestbook page"⟩) true false
        "<script>alert(1)</script>" = false) ∧
    (strContainsSub ("echo: " ++ annotatedPayload "<script>alert(1)</script>" "curl")
        "<script>alert(1)</script>" = true) := by
  refine ⟨?_, by decide, by decide⟩
  unfold StoredXSSModule.attempt_stored_payload
  by_cases hap : interactive ∧ approval = false
  · rw [if_pos hap]
    refine iff_of_false (by simp) ?_
    rintro ⟨hgate, -⟩
    rcases hgate with hi | ha
    · rw [hi] at hap
      exact absurd hap.1 (by simp)
    · rw [ha] at hap
      exact absurd hap.2 (by simp)
  · rw [if_neg hap]
    have hgate : interactive = false ∨ approval = true := by
      by_cases hi : interactive
      · right
        by_cases ha : approval
        · exact ha
        · exact absurd ⟨hi, by simp [ha]⟩ hap
      · left
        simp [hi]
    cases hpost : post (storedForm payload ua csrf) with
    | none =>
      refine iff_of_false (by simp) ?_
      rintro ⟨-, ⟨rp, hrp, -⟩, -⟩
      exact Option.noConfusion hrp
    | some rp =>
      dsimp only
      by_cases hpok : rp.ok = true
      · rw [if_neg (by simp [hpok])]
        cases hget : get with
        | none =>
          refine iff_of_false (by simp) ?_
          rintro ⟨-, -, rg, hrg, -⟩
          exact Option.noConfusion hrg
        | some rg =>
          dsimp only
          by_cases hgok : rg.ok = true
          · rw [if_neg (by simp [hgok])]
            by_cases hc : strContainsSub rg.text payload = true
            · rw [if_pos (by exact hc)]
              exact iff_of_true rfl ⟨hgate, ⟨rp, rfl, hpok⟩, ⟨rg, rfl, hgok, hc⟩⟩
            · rw [if_neg (by simp [hc])]
              refine iff_of_false (by simp) ?_
              rintro ⟨-, -, rg2, hrg2, -, hc2⟩
              cases hrg2
              exact hc hc2
          · rw [if_pos (by simp at hgok; exact hgok)]
            refine iff_of_false (by simp) ?_
            rintro ⟨-, -, rg2, hrg2, hgok2, -⟩
            cases hrg2
            exact hgok hgok2
      · rw [if_pos (by simp at hpok; exact hpok)]
        refine iff_of_false (by simp) ?_
        rintro ⟨-, ⟨rp2, hrp2, hpok2⟩, -⟩
        cases hrp2
        exact hpok hpok2

/-- The shared payload loop of `ReflectedXSSModule.run_interactive` (lines
111-123) and `StoredXSSModule.run_interactive` (lines 100-112): walk the
payload list with `enumerate(..., start=i)`, call the per-payload attempt,
and `break` at the first success. Returns the overall success flag and the
trace of `(attempt number, payload entry)` pairs actually dispatched to the
attempt function, in order. -/
def runPayloadsTrace (attempt : Nat → String × String → Bool) :
    List (String × String) → Nat → Bool × List (Nat × (String × String))
  | [], _ => (false, [])
  | p :: rest, i =>
    if attempt i p then (true, [(i, p)])
    else
      let r := runPayloadsTrace attempt rest (i + 1)
      (r.1, (i, p) :: r.2)

/-- Python `enumerate(l, start=i)`. -/
def enumerateFrom (i : Nat) : List (String × String) → List (Nat × (String × String))
  | [] => []
  | p :: rest => (i, p) :: enumerateFrom (i + 1) rest

/-- Modelled from the claim's words: the position (0-based, within the list)
of the first payload the attempt function deems successful. -/
def firstSuccessPos (attempt : Nat → String × String → Bool) :
    List (String × String) → Nat → Option Nat
  | [], _ => none
  | p :: rest, i =>
    if attempt i p then some 0
    else (firstSuccessPos attempt rest (i + 1)).map (fun k => k + 1)

/-- `ReflectedXSSModule.payloads` (`modules/reflected.py` lines 33-37). -/
def ReflectedXSSModule.payloads : List (String × String) :=
  [("<script>alert(1)</script>", "PAYLOAD_BASIC_ALERT"),
    ("<img src=x onerror=alert(1)>", "PAYLOAD_IMG_ONERROR"),
    ("<svg/onload=alert(1)>", "PAYLOAD_SVG_ONLOAD")]

/-- `StoredXSSModule.payloads` (`modules/stored.py` lines 35-39). -/
def StoredXSSModule.payloads : List (String × String) :=
  [("<script>alert('Stored XSS')</script>", "Basic script injection"),
    ("<img src=x onerror=alert('XSS')>", "Image error handler"),
    ("<svg/onload=alert('XSS')>", "SVG onload event")]

/-- `ReflectedXSSModule.run_interactive` (`modules/reflected.py` lines
40-123): approval gate, baseline GET of the page (the `if not response:`
guard at line 77 aborts on a missing or non-ok response; the reflection
check of the benign input is logging only), second approval gate, then the
first-success payload loop starting at attempt number 1. Oracles: `approval`
for the interactive prompts in order, `baseline` for the benign GET,
`attempt` for `_attempt_payload`. -/
def ReflectedXSSModule.run_interactive (approval : Nat → Bool)
    (baseline : Option Response) (attempt : Nat → String × String → Bool)
    (interactive : Bool) : Bool :=
  if interactive ∧ approval 0 = false then false
  else
    match baseline with
    | none => false
    | some rb =>
      if rb.ok = false then false
      else if interactive ∧ approval 1 = false then false
      else (runPayloadsTrace attempt ReflectedXSSModule.payloads 1).1

/-- `StoredXSSModule.run_interactive` (`modules/stored.py` lines 42-112):
approval gate, baseline GET of the guestbook (the `if not response:` guard
at line 79 aborts on a missing or non-ok response), second approval gate,
then the first-success payload loop starting at attempt number 1 (the
prevention text on success is logging only). -/
def StoredXSSModule.run_interactive (approval : Nat → Bool)
    (baseline : Option Response) (attempt : Nat → String × String → Bool)
    (interactive : Bool) : Bool :=
  if interactive ∧ approval 0 = false then false
  else
    match baseline with
    | none => false
    | some rb =>
      if rb.ok = false then false
      else if interactive ∧ approval 1 = false then false
      else (runPayloadsTrace attempt StoredXSSModule.payloads 1).1

theorem runPayloadsTrace_eq_firstSuccess (attempt : Nat → String × String → Bool)
    (ps : List (String × String)) (i : Nat) :
    runPayloadsTrace attempt ps i =
      (match firstSuccessPos attempt ps i with
       | some k => (true, (enumerateFrom i ps).take (k + 1))
       | none => (false, enumerateFrom i ps)) := by
  induction ps generalizing i with
  | nil => rfl
  | cons p rest ih =>
    unfold runPayloadsTrace firstSuccessPos enumerateFrom
    by_cases h : attempt i p = true
    · rw [if_pos h, if_pos h]
      rfl
    · rw [if_neg (by simp [h]), if_neg (by simp [h])]
      rw [ih (i + 1)]
      cases hf : firstSuccessPos attempt rest (i + 1) with
      | none => rfl
      | some k => rfl

/-- C5: in both the reflected and the stored module, the payload loop equals
the first-success semantics: the dispatched trace is the enumerated payload
list cut directly after the first successful attempt (so no later payload is
dispatched once one succeeds), and when no payload succeeds the whole list
is dispatched and the loop reports failure, as a total function that cannot
raise; a non-interactive module run returns the loop result whenever its
baseline response is truthy (present and ok) and failure otherwise;
concretely, an attempt oracle succeeding at the second reflected payload
stops the trace before the third. -/
theorem c5_payload_iteration_stops_at_first_success
    (attempt : Nat → String × String → Bool) (ps : List (String × String))
    (i : Nat) (ap : Nat → Bool) (r : Response) :
    (runPayloadsTrace attempt ps i =
      (match firstSuccessPos attempt ps i with
       | some k => (true, (enumerateFrom i ps).take (k + 1))
       | none => (false, enumerateFrom i ps))) ∧
    (ReflectedXSSModule.run_interactive ap (some r) attempt false =
      (if r.ok then (runPayloadsTrace attempt ReflectedXSSModule.payloads 1).1
       else false)) ∧
    (StoredXSSModule.run_interactive ap (some r) attempt false =
      (if r.ok then (runPayloadsTrace attempt StoredXSSModule.payloads 1).1
       else false)) ∧
    (runPayloadsTrace (fun j _ => j == 2) ReflectedXSSModule.payloads 1 =
      (true, [(1, ("<script>alert(1)</script>", "PAYLOAD_BASIC_ALERT")),
        (2, ("<img src=x onerror=alert(1)>", "PAYLOAD_IMG_ONERROR"))])) ∧
    (runPayloadsTrace (fun _ _ => false) ReflectedXSSModule.payloads 1 =
      (false, enumerateFrom 1 ReflectedXSSModule.payloads)) := by
  refine ⟨runPayloadsTrace_eq_firstSuccess attempt ps i, ?_, ?_, by decide, by decide⟩
  · unfold ReflectedXSSModule.run_interactive
    dsimp only
    by_cases hok : r.ok = true
    · simp [hok]
    · simp at hok
      simp [hok]
  · unfold StoredXSSModule.run_interactive
    dsimp only
    by_cases hok : r.ok = true
    · simp [hok]
    · simp at hok
      simp [hok]

/-- `DOMXSSModule.xss_dom_path` (`modules/dom_based.py` line 28). -/
def DOMXSSModule.xss_dom_path : String := "vulnerabilities/xss_d/"

/-- The URL of the DOM-XSS page (`get_target_url`, line 218-220). -/
def DOMXSSModule.page_url (c : TargetConfig) : String :=
  c.get_dvwa_url DOMXSSModule.xss_dom_path

/-- The payloads of the four demonstration exploits
(`_demonstrate_exploit_urls`, lines 133-172). -/
def DOMXSSModule.exploit_payloads : List String :=
  ["<script>alert('DOM XSS')</script>",
    "English</option><script>alert(1)</script>",
    "English</option><option value='tlh' selected>Klingon (tlh)</option>",
    "English</option><img src=x onerror=alert(document.cookie)>"]

/-- The constructed demonstration URLs (lines 141-164): the page URL with
the payload as the `default` query parameter; built as strings, never
dispatched. -/
def DOMXSSModule.exploit_urls (c : TargetConfig) : List String :=
  DOMXSSModule.exploit_payloads.map
    (fun p => DOMXSSModule.page_url c ++ "?default=" ++ p)

/-- `DOMXSSModule.run_interactive` (`modules/dom_based.py` lines 30-95):
approval gate, one GET of the DOM-XSS page (the `if not response:` guard at
line 68 aborts on a missing or non-ok response), second approval gate, then
purely textual demonstration steps and an unconditional `true`. The second
component is the list of URLs dispatched over the wire during the run. -/
def DOMXSSModule.run_interactive (approval : Nat → Bool)
    (pageGet : Option Response) (interactive : Bool) (c : TargetConfig) :
    Bool × List String :=
  if interactive ∧ approval 0 = false then (false, [])
  else
    match pageGet with
    | none => (false, [DOMXSSModule.page_url c])
    | some rp =>
      if rp.ok = false then (false, [DOMXSSModule.page_url c])
      else if interactive ∧ approval 1 = false then (false, [DOMXSSModule.page_url c])
      else (true, [DOMXSSModule.page_url c])

theorem dom_trace_only_page_url (ap : Nat → Bool) (page : Option Response)
    (interactive : Bool) (c : TargetConfig) (u : String) :
    u ∈ (DOMXSSModule.run_interactive ap page interactive c).2 →
      u = DOMXSSModule.page_url c := by
  unfold DOMXSSModule.run_interactive
  by_cases hap : interactive ∧ ap 0 = false
  · rw [if_pos hap]
    intro hu
    exact absurd hu (by simp)
  · rw [if_neg hap]
    cases page with
    | none =>
      intro hu
      simpa using hu
    | some rp =>
      dsimp only
      by_cases hok : rp.ok = false
      · rw [if_pos hok]
        intro hu
        simpa using hu
      · rw [if_neg hok]
        by_cases hap2 : interactive ∧ ap 1 = false
        · rw [if_pos hap2]
          intro hu
          simpa using hu
        · rw [if_neg hap2]
          intro hu
          simpa using hu

/-- C9 counterexample: a non-interactive run whose single page GET returns a
present 404 response fails — `if not response:` at `dom_based.py` line 68 is
Python truthiness, false for a 4xx/5xx `requests.Response` — while the
claim's "in non-interactive mode, whenever that GET returns a response,
run_interactive returns success" demands success. -/
theorem c9_counterexample_404_page_response :
    (DOMXSSModule.run_interactive (fun _ => true)
        (some ⟨404, "u", "not found"⟩) false ⟨"localhost", 80, false, false⟩).1
      = false := by
  decide

/-- C9 (amended): the DOM module's success is completion, not a classifier
verdict: a run whose single page GET returns an ok (status below 400)
response succeeds whenever the operator does not decline a prompt — in
non-interactive mode exactly when that GET's response is present and ok, and
in interactive mode with every prompt approved likewise; every URL it
dispatches over the wire is the one DOM page URL (so the single GET is the
only network call), and none of the four constructed exploit URLs is ever
dispatched. -/
theorem c9_dom_module_completion_success (c : TargetConfig) (ap : Nat → Bool)
    (r : Response) (page : Option Response) (interactive : Bool) :
    (DOMXSSModule.run_interactive ap (some r) false c =
      (r.ok, [DOMXSSModule.page_url c])) ∧
    (DOMXSSModule.run_interactive (fun _ => true) (some r) true c =
      (r.ok, [DOMXSSModule.page_url c])) ∧
    (∀ u ∈ (DOMXSSModule.run_interactive ap page interactive c).2,
      u = DOMXSSModule.page_url c) ∧
    (∀ u ∈ DOMXSSModule.exploit_urls c,
      u ∉ (DOMXSSModule.run_interactive ap page interactive c).2) := by
  have hrun : ∀ b : Nat → Bool, DOMXSSModule.run_interactive b (some r) false c =
      (r.ok, [DOMXSSModule.page_url c]) := by
    intro b
    unfold DOMXSSModule.run_interactive
    dsimp only
    by_cases hok : r.ok = true
    · simp [hok]
    · simp at hok
      simp [hok]
  have hrun2 : DOMXSSModule.run_interactive (fun _ => true) (some r) true c =
      (r.ok, [DOMXSSModule.page_url c]) := by
    unfold DOMXSSModule.run_interactive
    dsimp only
    by_cases hok : r.ok = true
    · simp [hok]
    · simp at hok
      simp [hok]
  refine ⟨hrun ap, hrun2,
    fun u hu => dom_trace_only_page_url ap page interactive c u hu, ?_⟩
  intro u hu hmem
  have hpage : u = DOMXSSModule.page_url c :=
    dom_trace_only_page_url ap page interactive c u hmem
  unfold DOMXSSModule.exploit_urls at hu
  rw [List.mem_map] at hu
  obtain ⟨p, hp, hup⟩ := hu
  rw [hpage] at hup
  have hlen : (DOMXSSModule.page_url c ++ "?default=" ++ p).length =
      (DOMXSSModule.page_url c).length + 9 + p.length := by
    rw [String.length_append, String.length_append]
    rfl
  have hcontra : (DOMXSSModule.page_url c).length + 9 + p.length =
      (DOMXSSModule.page_url c).length := by
    rw [← hlen, hup]
  omega

/-- C9 witness: with a localhost target, an always-approving operator and a
present 200-status page response, the run succeeds, and the first
constructed exploit URL is among the demonstration URLs yet is not
dispatched. -/
theorem c9_witness_exploit_url_not_dispatched :
    (DOMXSSModule.run_interactive (fun _ => true) (some ⟨200, "u", "body"⟩)
        true ⟨"localhost", 80, false, false⟩).1 = true ∧
    "http://localhost/vulnerabilities/xss_d/?default=<script>alert('DOM XSS')</script>"
        ∈ DOMXSSModule.exploit_urls ⟨"localhost", 80, false, false⟩ ∧
    "http://localhost/vulnerabilities/xss_d/?default=<script>alert('DOM XSS')</script>"
        ∉ (DOMXSSModule.run_interactive (fun _ => true)
            (some ⟨200, "u", "body"⟩) true ⟨"localhost", 80, false, false⟩).2 :=
  ⟨by decide, by decide,
    (c9_dom_module_completion_success ⟨"localhost", 80, false, false⟩ (fun _ => true)
        ⟨200, "u", "body"⟩ (some ⟨200, "u", "body"⟩) true).2.2.2 _ (by decide)⟩
